import Mathlib

/-!
Shallow embedding of the sankaku pagination core: the generic `Paginator`
driver, the `PostPaginator` / `TagPaginator` / `UserPaginator` parameter
builders (`sankaku/paginators.py`) and the `ratelimit` decorator
(`sankaku/utils.py`), together with theorems settling the specification
claims about them.
-/

namespace Sankaku

/-- JSON values, the decoded response bodies handled by `Paginator.next_page`. -/
inductive Json where
  | null : Json
  | boolean (b : Bool) : Json
  | num (n : Int) : Json
  | str (s : String) : Json
  | arr (elems : List Json) : Json
  | obj (fields : List (String × Json)) : Json

/-- First-occurrence lookup in a JSON object's field list (Python `dict`
lookup; in a real decoded body the keys are unique). -/
def jlookup : List (String × Json) → String → Option Json
  | [], _ => none
  | (k', v) :: rest, k => if k' = k then some v else jlookup rest k

/-- The query parameter mapping `self.params`: an insertion-ordered
string-to-string map, as a Python `dict` is. -/
abbrev Params := List (String × String)

/-- `self.params[k] = v` with Python `dict` semantics: overwrite the value in
place when the key is present, otherwise append the new pair at the end. -/
def setParam : Params → String → String → Params
  | [], k, v => [(k, v)]
  | (k', v') :: rest, k, v =>
      if k' = k then (k, v) :: rest else (k', v') :: setParam rest k v

/-- `self.params.get(k)`. -/
def lookupParam : Params → String → Option String
  | [], _ => none
  | (k', v') :: rest, k => if k' = k then some v' else lookupParam rest k

theorem lookupParam_setParam_self (ps : Params) (k v : String) :
    lookupParam (setParam ps k v) k = some v := by
  induction ps with
  | nil => simp [setParam, lookupParam]
  | cons p rest ih =>
      obtain ⟨k', v'⟩ := p
      by_cases h : k' = k <;> simp [setParam, lookupParam, h, ih]

theorem lookupParam_setParam_other (ps : Params) (k v k₂ : String) (h : k₂ ≠ k) :
    lookupParam (setParam ps k v) k₂ = lookupParam ps k₂ := by
  have h' : k ≠ k₂ := Ne.symm h
  induction ps with
  | nil => simp [setParam, lookupParam, h']
  | cons p rest ih =>
      obtain ⟨k', v'⟩ := p
      by_cases hk : k' = k
      · subst hk
        simp [setParam, lookupParam, h']
      · by_cases hk₂ : k' = k₂ <;> simp [setParam, lookupParam, hk, hk₂, h, h', ih]

theorem setParam_setParam_self (ps : Params) (k v₁ v₂ : String) :
    setParam (setParam ps k v₁) k v₂ = setParam ps k v₂ := by
  induction ps with
  | nil => simp [setParam]
  | cons p rest ih =>
      obtain ⟨k', v'⟩ := p
      by_cases h : k' = k <;> simp [setParam, h, ih]

theorem setParam_lookup_id (ps : Params) (k v : String)
    (h : lookupParam ps k = some v) : setParam ps k v = ps := by
  induction ps with
  | nil => simp [lookupParam] at h
  | cons p rest ih =>
      obtain ⟨k', v'⟩ := p
      by_cases hk : k' = k
      · subst hk
        simp [lookupParam] at h
        simp [setParam, h]
      · simp [lookupParam, hk] at h
        simp [setParam, hk, ih h]

/-- Modelled from the spec: `sankaku.constants.BASE_PAGE_NUMBER` (the
`constants` module is not part of the provided sources); the spec says the
page number defaults to 1. -/
def BASE_PAGE_NUMBER : Int := 1

/-- Modelled from the spec: `sankaku.constants.BASE_PAGE_LIMIT` (the
`constants` module is not part of the provided sources); the spec says the
limit defaults to the system default, e.g. 40. -/
def BASE_PAGE_LIMIT : Int := 40

/-- Python `x or default` on an `Optional[int]`: `None` and `0` are falsy and
give the default; every other integer is kept. -/
def orDefault (x : Option Int) (d : Int) : Int :=
  match x with
  | none => d
  | some n => if n = 0 then d else n

/-- The mutable pagination state of one `Paginator` instance: the attribute
`self.page_number` and the query mapping `self.params`.  (The attributes
`model`, `session`, `url` and `limit` are never written after `__init__` and
`limit` is only read by `complete_params`, so they are passed as plain
arguments where needed.) -/
structure PagState where
  page_number : Int
  params : Params
deriving DecidableEq

/-- `Paginator.complete_params`: sets `lang`, `page` and `limit` in the query
mapping.  After `__init__` the attributes `page_number` and `limit` are never
`None` (the `or`-defaulting has already run), so both `if ... is not None`
guards of the source always pass here. -/
def completeParamsBase (pn lim : Int) (ps : Params) : Params :=
  setParam (setParam (setParam ps "lang" "en") "page" (toString pn))
    "limit" (toString lim)

/-- `Paginator.__init__(model, session, url, page_number, limit, params)`:
applies the `or`-defaults, stores the params (`params or {}`) and invokes
`complete_params` once. -/
def Paginator.init (page_number limit : Option Int) (params : Option Params) :
    PagState :=
  let pn := orDefault page_number BASE_PAGE_NUMBER
  let lim := orDefault limit BASE_PAGE_LIMIT
  let ps := (params.getD [])
  { page_number := pn, params := completeParamsBase pn lim ps }

/-- One HTTP response as seen by `next_page`: the content type tag and the
decoded JSON body. -/
structure Response where
  contentType : String
  body : Json

/-- `sankaku.models.Page`: the page number and the decoded items. -/
structure Page (T : Type) where
  number : Int
  items : List T
deriving DecidableEq

/-- The possible outcomes of one `next_page()` call: the raised
`PaginatorLastPage`, the raised `SankakuError` for an error payload, the
raised `SankakuError` for a non-JSON content type, a failure while decoding
the items (`self.model(**item)` raising), or a successfully constructed page. -/
inductive FetchResult (T : Type) where
  | lastPage (pageNumber : Int) : FetchResult T
  | apiError (errorId code : Json) (rest : List (String × Json)) : FetchResult T
  | protocolError (contentType : String) : FetchResult T
  | decodeError : FetchResult T
  | page (p : Page T) : FetchResult T

/-- Python iteration `for item in data` over a decoded JSON value: a list
yields its elements, a dict yields its keys, a string yields its characters,
anything else raises `TypeError` (modelled as `none`). -/
def pyIter : Json → Option (List Json)
  | Json.arr xs => some xs
  | Json.obj fields => some (fields.map (fun p => Json.str p.1))
  | Json.str s => some (s.data.map (fun c => Json.str (String.mk [c])))
  | _ => none

/-- `self.model(**item)`: keyword-unpacking requires `item` to be a mapping;
on a mapping the externally supplied item decoder runs (and may fail). -/
def decodeItem {T : Type} (decode : List (String × Json) → Option T) :
    Json → Option T
  | Json.obj fields => decode fields
  | _ => none

/-- The list comprehension `[self.model(**item) for item in data]`: decodes
the items left to right, the first failure aborting the whole construction. -/
def decodeAll {T : Type} (decode : List (String × Json) → Option T) :
    List Json → Option (List T)
  | [] => some []
  | j :: js =>
      match decodeItem decode j, decodeAll decode js with
      | some t, some ts => some (t :: ts)
      | _, _ => none

/-- `Paginator.construct_page(data)`: builds
`[self.model(**item) for item in data]` and wraps it in a `Page` numbered
`self.page_number - 1` (called after the increment, with `pn` the new
`self.page_number`). -/
def constructPage {T : Type} (decode : List (String × Json) → Option T)
    (pn : Int) (data : Json) : FetchResult T :=
  match pyIter data with
  | none => FetchResult.decodeError
  | some js =>
      match decodeAll decode js with
      | none => FetchResult.decodeError
      | some items => FetchResult.page { number := pn - 1, items := items }

/-- The pattern `[] | {"data": []}` of `next_page`: an empty list, or a
mapping whose `data` field is an empty list. -/
def isEmptyBody : Json → Bool
  | Json.arr [] => true
  | Json.obj fields =>
      match jlookup fields "data" with
      | some (Json.arr []) => true
      | _ => false
  | _ => false

/-- The binding of the mapping pattern `{"code": code}`: only a mapping with a
`code` key matches. -/
def getCode : Json → Option Json
  | Json.obj fields => jlookup fields "code"
  | _ => none

/-- The binding of `errorId` in the pattern `{"code": code, "errorId": error_id, **kwargs}`. -/
def getErrorId : Json → Option Json
  | Json.obj fields => jlookup fields "errorId"
  | _ => none

/-- The `**kwargs` binding of the error pattern: all fields other than `code`
and `errorId`. -/
def restFields : Json → List (String × Json)
  | Json.obj fields => fields.filter (fun p => !(p.1 == "code") && !(p.1 == "errorId"))
  | _ => []

/-- The pattern `{"data": list() as items} if items`: a mapping whose `data`
field is a non-empty list is unwrapped to that list (`data = items`); every
other body is left as it is. -/
def unwrapData : Json → Json
  | Json.obj fields =>
      match jlookup fields "data" with
      | some (Json.arr (x :: xs)) => Json.arr (x :: xs)
      | _ => Json.obj fields
  | j => j

/-- Outcome of the `match data` classification in `next_page`. -/
inductive Classified where
  | last : Classified
  | apiErr (errorId code : Json) (rest : List (String × Json)) : Classified
  | proceed (data : Json) : Classified

/-- The `match data:` statement of `next_page`, case for case and in source
order: empty body, benign `code`, `code` plus `errorId`, non-empty `data`
unwrap, and the silent fall-through that keeps the raw body. -/
def classify (allowed : Json → Bool) (body : Json) : Classified :=
  if isEmptyBody body then Classified.last
  else
    match getCode body with
    | some c =>
        if allowed c then Classified.last
        else
          match getErrorId body with
          | some e => Classified.apiErr e c (restFields body)
          | none => Classified.proceed (unwrapData body)
    | none => Classified.proceed (unwrapData body)

/-- The two state mutations of a successful `next_page`:
`self.page_number += 1` and `self.params["page"] = str(self.page_number)`. -/
def advance (st : PagState) : PagState :=
  { page_number := st.page_number + 1,
    params := setParam st.params "page" (toString (st.page_number + 1)) }

/-- `Paginator.next_page()`.  `allowed` is membership in
`sankaku.constants.PAGE_ALLOWED_ERRORS` (a constant whose module is not part
of the provided sources, so it stays abstract), `decode` is the external item
decoder `self.model`.  Returns the outcome together with the pagination state
after the call. -/
def nextPage {T : Type} (allowed : Json → Bool)
    (decode : List (String × Json) → Option T)
    (st : PagState) (resp : Response) : FetchResult T × PagState :=
  if resp.contentType ≠ "application/json" then
    (FetchResult.protocolError resp.contentType, st)
  else
    match classify allowed resp.body with
    | Classified.last => (FetchResult.lastPage st.page_number, st)
    | Classified.apiErr e c rest => (FetchResult.apiError e c rest, st)
    | Classified.proceed data =>
        let st' := advance st
        (constructPage decode st'.page_number data, st')

/-- The outcomes of `next_page` that are raised before the state mutations:
last-page termination, the API error payload, and the non-JSON protocol
error. -/
def isAbortive {T : Type} : FetchResult T → Bool
  | FetchResult.lastPage _ => true
  | FetchResult.apiError _ _ _ => true
  | FetchResult.protocolError _ => true
  | FetchResult.decodeError => false
  | FetchResult.page _ => false

/-- Modelled from the spec: the `sankaku.types.PostOrder` enumeration (the
`types` module is not part of the provided sources); members and string
values are placeholders, the claims do not depend on them. -/
inductive PostOrder where
  | popularity : PostOrder
  | dateOrder : PostOrder
deriving DecidableEq

def PostOrder.val : PostOrder → String
  | PostOrder.popularity => "popularity"
  | PostOrder.dateOrder => "date"

/-- Modelled from the spec: the `sankaku.types.Rating` enumeration. -/
inductive Rating where
  | safe : Rating
  | questionable : Rating
deriving DecidableEq

def Rating.val : Rating → String
  | Rating.safe => "s"
  | Rating.questionable => "q"

/-- Modelled from the spec: the `sankaku.types.FileSize` enumeration (the
dedicated size-class token). -/
inductive FileSize where
  | large : FileSize
  | huge : FileSize
deriving DecidableEq

def FileSize.val : FileSize → String
  | FileSize.large => "large_filesize"
  | FileSize.huge => "huge_filesize"

/-- Modelled from the spec: the `sankaku.types.FileType` enumeration;
`IMAGE` is the default (no token emitted), `VIDEO` is the one legal file type
for a video-duration filter. -/
inductive FileType where
  | image : FileType
  | video : FileType
  | gif : FileType
deriving DecidableEq

def FileType.val : FileType → String
  | FileType.image => "image"
  | FileType.video => "video"
  | FileType.gif => "gif"

/-- Modelled from the spec: `sankaku.types.TagType` (numeric values,
serialized with `str`). -/
inductive TagType where
  | general : TagType
  | artist : TagType
deriving DecidableEq

def TagType.val : TagType → Int
  | TagType.general => 0
  | TagType.artist => 1

/-- Modelled from the spec: `sankaku.types.TagOrder`. -/
inductive TagOrder where
  | popularity : TagOrder
  | quality : TagOrder
deriving DecidableEq

def TagOrder.val : TagOrder → String
  | TagOrder.popularity => "popularity"
  | TagOrder.quality => "quality"

/-- Modelled from the spec: `sankaku.types.SortParameter` (the sort key). -/
inductive SortParameter where
  | name : SortParameter
  | postCount : SortParameter
deriving DecidableEq

def SortParameter.val : SortParameter → String
  | SortParameter.name => "name"
  | SortParameter.postCount => "post_count"

/-- Modelled from the spec: `sankaku.types.SortDirection`; `DESC` is the
default used when a sort key is given without a direction. -/
inductive SortDirection where
  | asc : SortDirection
  | desc : SortDirection
deriving DecidableEq

def SortDirection.val : SortDirection → String
  | SortDirection.asc => "asc"
  | SortDirection.desc => "desc"

/-- Modelled from the spec: `sankaku.types.UserOrder`. -/
inductive UserOrder where
  | posts : UserOrder
  | name : UserOrder
deriving DecidableEq

def UserOrder.val : UserOrder → String
  | UserOrder.posts => "posts"
  | UserOrder.name => "name"

/-- Modelled from the spec: `sankaku.types.UserLevel` (numeric values,
serialized with `str`). -/
inductive UserLevel where
  | member : UserLevel
  | admin : UserLevel
deriving DecidableEq

def UserLevel.val : UserLevel → Int
  | UserLevel.member => 20
  | UserLevel.admin => 50

/-- A `datetime.datetime` to minute precision, as far as
`strftime("%Y-%m-%dT%H:%M")` observes it. -/
structure DateTime where
  year : Nat
  month : Nat
  day : Nat
  hour : Nat
  minute : Nat
deriving DecidableEq

/-- Zero-pad to two digits (`%m`, `%d`, `%H`, `%M`). -/
def pad2 (n : Nat) : String :=
  if n < 10 then "0" ++ toString n else toString n

/-- Zero-pad to four digits (`%Y`). -/
def pad4 (n : Nat) : String :=
  if n < 10 then "000" ++ toString n
  else if n < 100 then "00" ++ toString n
  else if n < 1000 then "0" ++ toString n
  else toString n

/-- `d.strftime("%Y-%m-%dT%H:%M")`. -/
def DateTime.fmtMinute (d : DateTime) : String :=
  pad4 d.year ++ "-" ++ pad2 d.month ++ "-" ++ pad2 d.day ++ "T" ++
    pad2 d.hour ++ ":" ++ pad2 d.minute

/-- `sankaku.errors.VideoDurationError`, the configuration error raised by
`PostPaginator.complete_params` (the `errors` module is not part of the
provided sources; only the raise site matters here). -/
inductive PagError where
  | videoDurationError : PagError
deriving DecidableEq

/-- The optional filter attributes of `PostPaginator`, in the order
`__init__` assigns them (which is the iteration order of `self.__dict__`).
The `tags` attribute is kept separately because `complete_params` mutates
it. -/
structure PostOptions where
  order : Option PostOrder := none
  date : Option (List DateTime) := none
  rating : Option Rating := none
  threshold : Option Int := none
  hide_posts_in_books : Option String := none
  file_size : Option FileSize := none
  file_type : Option FileType := none
  video_duration : Option (List Int) := none
  recommended_for : Option String := none
  favorited_by : Option String := none
  added_by : Option (List String) := none
  voted : Option String := none
deriving DecidableEq

/-- Token emitted for one present optional field (absent fields hit the
`case [_, None]: continue` arm). -/
def optToken {α : Type} (x : Option α) (f : α → String) : List String :=
  match x with
  | none => []
  | some v => [f v]

/-- The tokens appended after the `video_duration` arm of the `match`:
`recommended_for`, `favorited_by`, one `user:NAME` per `added_by` entry, and
`voted`, in `__dict__` order. -/
def postTagTokensTail (o : PostOptions) (acc : List String) : List String :=
  acc ++ optToken o.recommended_for (fun s => "recommended_for:" ++ s)
    ++ optToken o.favorited_by (fun s => "fav:" ++ s)
    ++ (match o.added_by with
        | some users => users.map (fun u => "user:" ++ u)
        | none => [])
    ++ optToken o.voted (fun s => "voted:" ++ s)

/-- The `for items in self.__dict__.items(): match items:` loop of
`PostPaginator.complete_params`, restricted to the attributes that hit a
token-appending arm, in `__dict__` insertion order (`order`, `date`,
`rating`, `threshold`, `file_size`, `file_type`, `video_duration`,
`recommended_for`, `favorited_by`, `added_by`, `voted`; all other attributes
match no arm).  The guard `v != types.FileType.IMAGE` on the
`"rating" | "order" | "file_type"` arm is always true for `rating` and
`order` values (a Python cross-enum inequality), so only `file_type` is
filtered by it.  A `video_duration` without `file_type == VIDEO` (including
`file_type` absent) raises `VideoDurationError` mid-loop, aborting
construction. -/
def postTokensPre (o : PostOptions) : List String :=
  optToken o.order (fun v => "order:" ++ v.val)
  ++ optToken o.date
      (fun ds => "date:" ++ String.intercalate ".." (ds.map DateTime.fmtMinute))
  ++ optToken o.rating (fun v => "rating:" ++ v.val)
  ++ optToken o.threshold (fun v => "threshold:" ++ toString v)
  ++ optToken o.file_size (fun v => v.val)
  ++ (match o.file_type with
      | some ft => if ft = FileType.image then [] else ["file_type:" ++ ft.val]
      | none => [])

def postTagTokens (o : PostOptions) : Except PagError (List String) :=
  match o.video_duration with
  | some secs =>
      if o.file_type ≠ some FileType.video then
        Except.error PagError.videoDurationError
      else
        Except.ok (postTagTokensTail o
          (postTokensPre o
            ++ ["duration:" ++ String.intercalate ".." (secs.map toString)]))
  | none => Except.ok (postTagTokensTail o (postTokensPre o))

/-- `ps[k] = f(v)` when the optional field is present (`if x is not None`). -/
def maybeSet {α : Type} (ps : Params) (k : String) (x : Option α)
    (f : α → String) : Params :=
  match x with
  | none => ps
  | some v => setParam ps k (f v)

/-- `PostPaginator.complete_params`: the `super()` call, the
`if self.tags is None: self.tags = []` reset, the token loop, then the
`hide_posts_in_books` parameter and the space-joined `tags` parameter (the
latter only when `self.tags` is truthy, i.e. non-empty).  Returns the final
`self.tags` list together with the final parameter mapping. -/
def postCompleteParams (o : PostOptions) (tags0 : Option (List String))
    (pn lim : Int) (ps : Params) : Except PagError (List String × Params) :=
  let ps1 := completeParamsBase pn lim ps
  match postTagTokens o with
  | Except.error e => Except.error e
  | Except.ok toks =>
      let tgs := tags0.getD [] ++ toks
      let ps2 := maybeSet ps1 "hide_posts_in_books" o.hide_posts_in_books id
      let ps3 :=
        if tgs.isEmpty then ps2
        else setParam ps2 "tags" (String.intercalate " " tgs)
      Except.ok (tgs, ps3)

/-- State of a constructed `PostPaginator`: base pagination state plus the
mutated `self.tags` attribute. -/
structure PostState where
  base : PagState
  tags : List String
deriving DecidableEq

/-- `PostPaginator.__init__`: stores the filter attributes, applies the
`or`-defaults of the base `__init__` and invokes `complete_params` once;
a `VideoDurationError` aborts construction, producing no paginator. -/
def postInit (o : PostOptions) (tags : Option (List String))
    (page_number limit : Option Int) (params : Option Params) :
    Except PagError PostState :=
  let pn := orDefault page_number BASE_PAGE_NUMBER
  let lim := orDefault limit BASE_PAGE_LIMIT
  match postCompleteParams o tags pn lim (params.getD []) with
  | Except.error e => Except.error e
  | Except.ok s => Except.ok { base := { page_number := pn, params := s.2 }, tags := s.1 }

/-- The optional filter attributes of `TagPaginator`. -/
structure TagOptions where
  tag_type : Option TagType := none
  order : Option TagOrder := none
  rating : Option Rating := none
  max_post_count : Option Int := none
  sort_parameter : Option SortParameter := none
  sort_direction : Option SortDirection := none
deriving DecidableEq

/-- `TagPaginator.complete_params` (`sd` is `self.sort_direction`, already
defaulted to `DESC` by `__init__`): `types[]`, `order`, `rating`, `amount`,
then `sortBy` and `sortDirection` together when a sort key is present. -/
def tagCompleteParams (o : TagOptions) (sd : SortDirection) (pn lim : Int)
    (ps : Params) : Params :=
  let ps1 := completeParamsBase pn lim ps
  let ps2 := maybeSet ps1 "types[]" o.tag_type (fun v => toString v.val)
  let ps3 := maybeSet ps2 "order" o.order TagOrder.val
  let ps4 := maybeSet ps3 "rating" o.rating Rating.val
  let ps5 := maybeSet ps4 "amount" o.max_post_count toString
  match o.sort_parameter with
  | some sp => setParam (setParam ps5 "sortBy" sp.val) "sortDirection" sd.val
  | none => ps5

/-- `TagPaginator.__init__`: `sort_direction or types.SortDirection.DESC`
(enum members are truthy, so only `None` falls back), then the base
`__init__` with its single `complete_params` call. -/
def tagInit (o : TagOptions) (page_number limit : Option Int)
    (params : Option Params) : PagState :=
  let sd := o.sort_direction.getD SortDirection.desc
  let pn := orDefault page_number BASE_PAGE_NUMBER
  let lim := orDefault limit BASE_PAGE_LIMIT
  { page_number := pn, params := tagCompleteParams o sd pn lim (params.getD []) }

/-- The optional filter attributes of `UserPaginator`. -/
structure UserOptions where
  order : Option UserOrder := none
  level : Option UserLevel := none
deriving DecidableEq

/-- `UserPaginator.complete_params`: the `super()` call, then `order` and
`level`. -/
def userCompleteParams (o : UserOptions) (pn lim : Int) (ps : Params) : Params :=
  let ps1 := completeParamsBase pn lim ps
  let ps2 := maybeSet ps1 "order" o.order UserOrder.val
  maybeSet ps2 "level" o.level (fun v => toString v.val)

/-- `UserPaginator.__init__`. -/
def userInit (o : UserOptions) (page_number limit : Option Int)
    (params : Option Params) : PagState :=
  let pn := orDefault page_number BASE_PAGE_NUMBER
  let lim := orDefault limit BASE_PAGE_LIMIT
  { page_number := pn, params := userCompleteParams o pn lim (params.getD []) }

/-- The two construction-time failures of `sankaku.utils.ratelimit`:
`RateLimitError` when both rates are truthy, `TypeError` when neither is. -/
inductive RLError where
  | rateLimitError : RLError
  | typeError : RLError
deriving DecidableEq

/-- Python truthiness of an `Optional[int]`: `None` and `0` are falsy. -/
def truthyOpt (x : Option Int) : Bool :=
  match x with
  | none => false
  | some n => decide (n ≠ 0)

/-- `sankaku.utils.ratelimit(*, rps=None, rpm=None)` up to the point where
`sleep_time` is fixed: `if all(locals().values()): raise RateLimitError`,
`elif not any(locals().values()): raise TypeError`, then
`sleep_time = (1 / rps) if rps else (60 / rpm)` (exact rational arithmetic
in place of the Python float). -/
def ratelimitDelay (rps rpm : Option Int) : Except RLError Rat :=
  if truthyOpt rps && truthyOpt rpm then Except.error RLError.rateLimitError
  else if !(truthyOpt rps || truthyOpt rpm) then Except.error RLError.typeError
  else if truthyOpt rps then Except.ok (1 / ((rps.getD 0 : Int) : Rat))
  else Except.ok (60 / ((rpm.getD 0 : Int) : Rat))

/-- Observable events of the decorated operation: a suspension of a fixed
duration, or the execution of the wrapped operation itself. -/
inductive RLEvent where
  | sleep (t : Rat) : RLEvent
  | call : RLEvent
deriving DecidableEq

/-- The decorated coroutine `inner`: `await asyncio.sleep(sleep_time)` then
`return await func(*args, **kwargs)` — the event trace of one invocation. -/
def innerTrace (sleep_time : Rat) : List RLEvent :=
  [RLEvent.sleep sleep_time, RLEvent.call]

/-- Event trace of `n` strictly sequential invocations of the decorated
operation. -/
def invocationsTrace (t : Rat) : Nat → List RLEvent
  | 0 => []
  | n + 1 => innerTrace t ++ invocationsTrace t n

theorem lookup_completeParamsBase_lang (pn lim : Int) (ps : Params) :
    lookupParam (completeParamsBase pn lim ps) "lang" = some "en" := by
  unfold completeParamsBase
  rw [lookupParam_setParam_other _ _ _ _ (by decide),
    lookupParam_setParam_other _ _ _ _ (by decide), lookupParam_setParam_self]

theorem lookup_completeParamsBase_page (pn lim : Int) (ps : Params) :
    lookupParam (completeParamsBase pn lim ps) "page" = some (toString pn) := by
  unfold completeParamsBase
  rw [lookupParam_setParam_other _ _ _ _ (by decide), lookupParam_setParam_self]

theorem lookup_completeParamsBase_limit (pn lim : Int) (ps : Params) :
    lookupParam (completeParamsBase pn lim ps) "limit" = some (toString lim) := by
  unfold completeParamsBase
  rw [lookupParam_setParam_self]

theorem lookup_maybeSet_other {α : Type} (ps : Params) (k : String) (x : Option α)
    (f : α → String) (k₂ : String) (h : k₂ ≠ k) :
    lookupParam (maybeSet ps k x f) k₂ = lookupParam ps k₂ := by
  cases x with
  | none => rfl
  | some v => exact lookupParam_setParam_other ps k (f v) k₂ h

/-- C1 (amended): with current page number `N`, a `{"data": [item1, item2, ...]}`
body whose items all decode yields the page numbered `N` with the decoded
items, and afterwards the `page` query parameter is the string of `N + 1`
(having advanced from `N` to `N + 1`). -/
theorem C1_data_page_bookkeeping {T : Type} (allowed : Json → Bool)
    (decode : List (String × Json) → Option T) (st : PagState)
    (fields : List (String × Json)) (x : Json) (xs : List Json) (items : List T)
    (hd : jlookup fields "data" = some (Json.arr (x :: xs)))
    (hc : jlookup fields "code" = none)
    (hdec : decodeAll decode (x :: xs) = some items) :
    nextPage allowed decode st
        { contentType := "application/json", body := Json.obj fields } =
      (FetchResult.page { number := st.page_number, items := items }, advance st) ∧
    lookupParam (advance st).params "page" = some (toString (st.page_number + 1)) := by
  constructor
  · unfold nextPage
    simp only [classify, isEmptyBody, getCode, unwrapData, hd, hc, advance]
    simp [constructPage, pyIter, hdec]
  · exact lookupParam_setParam_self st.params "page" (toString (st.page_number + 1))

/-- C1 witness: the amended theorem applied to a fresh default paginator and a
two-item `data` body. -/
theorem C1_witness :
    nextPage (fun _ => false) (fun _ => some (0 : Nat)) (Paginator.init none none none)
        { contentType := "application/json",
          body := Json.obj [("data", Json.arr [Json.obj [], Json.obj []])] } =
      (FetchResult.page { number := 1, items := [0, 0] },
        advance (Paginator.init none none none)) ∧
    lookupParam (advance (Paginator.init none none none)).params "page" = some "2" :=
  C1_data_page_bookkeeping (fun _ => false) (fun _ => some (0 : Nat))
    (Paginator.init none none none) [("data", Json.arr [Json.obj [], Json.obj []])]
    (Json.obj []) [Json.obj []] [0, 0] (by rfl) (by rfl) (by rfl)

/-- C1 counterexample: on a default paginator (current page number `N = 1`,
`page` parameter `"1"`), a two-item `data` body returns the page numbered 1,
but afterwards the `page` parameter is `"2"` — the string of `N + 1`, not of
`N + 2 = 3` as the claim states. -/
theorem C1_counterexample :
    nextPage (fun _ => false) (fun _ => some (0 : Nat)) (Paginator.init none none none)
        { contentType := "application/json",
          body := Json.obj [("data", Json.arr [Json.obj [], Json.obj []])] } =
      (FetchResult.page { number := 1, items := [0, 0] },
        { page_number := 2,
          params := [("lang", "en"), ("page", "2"), ("limit", "40")] }) ∧
    ("2" : String) ≠ "3" :=
  ⟨rfl, by decide⟩

/-- C2 (amended): construction never validates `limit`; the `limit` query
value is always the stringified effective limit — the supplied value whenever
it is a nonzero integer (inside `[1,100]` or not), and the default `40` when
it is omitted or `0`. -/
theorem C2_limit_param (page_number limit : Option Int) (params : Option Params) :
    lookupParam (Paginator.init page_number limit params).params "limit" =
      some (toString (orDefault limit BASE_PAGE_LIMIT)) := by
  unfold Paginator.init
  exact lookup_completeParamsBase_limit _ _ _

/-- C2 counterexample: `limit = 101` lies outside `[1,100]`, yet construction
succeeds and yields a paginator whose `limit` query value is `"101"` — no
configuration/validation error is raised. -/
theorem C2_counterexample :
    Paginator.init none (some 101) none =
      { page_number := 1,
        params := [("lang", "en"), ("page", "1"), ("limit", "101")] } ∧
    ¬((101 : Int) ≤ 100) :=
  ⟨by decide, by decide⟩

/-- C7 (amended): with both rates supplied as nonzero integers construction
raises `RateLimitError`; with neither supplied it raises `TypeError`; with
exactly one nonzero rate supplied it succeeds with delay `1/rps` (resp.
`60/rpm`), and in the trace of any number of sequential invocations every
execution of the wrapped operation — including the first — is immediately
preceded by a sleep of that delay.  (The source tests Python truthiness, so a
supplied rate of `0` counts as absent — see the counterexample.) -/
theorem C7_ratelimit :
    (∀ r m : Int, r ≠ 0 → m ≠ 0 →
        ratelimitDelay (some r) (some m) = Except.error RLError.rateLimitError) ∧
    ratelimitDelay none none = Except.error RLError.typeError ∧
    (∀ r : Int, r ≠ 0 → ratelimitDelay (some r) none = Except.ok (1 / (r : Rat))) ∧
    (∀ m : Int, m ≠ 0 → ratelimitDelay none (some m) = Except.ok (60 / (m : Rat))) ∧
    (∀ (t : Rat) (n i : Nat), (invocationsTrace t n).get? i = some RLEvent.call →
        1 ≤ i ∧ (invocationsTrace t n).get? (i - 1) = some (RLEvent.sleep t)) := by
  refine ⟨?_, rfl, ?_, ?_, ?_⟩
  · intro r m hr hm
    simp [ratelimitDelay, truthyOpt, hr, hm]
  · intro r hr
    simp [ratelimitDelay, truthyOpt, hr]
  · intro m hm
    simp [ratelimitDelay, truthyOpt, hm]
  · intro t n
    induction n with
    | zero => intro i h; simp [invocationsTrace] at h
    | succ n ih =>
        intro i h
        match i with
        | 0 => simp [invocationsTrace, innerTrace] at h
        | 1 =>
            refine ⟨le_refl 1, ?_⟩
            simp [invocationsTrace, innerTrace]
        | (j + 2) =>
            have h' : (invocationsTrace t n).get? j = some RLEvent.call := by
              simpa [invocationsTrace, innerTrace] using h
            obtain ⟨hj, hs⟩ := ih j h'
            refine ⟨by omega, ?_⟩
            obtain ⟨j', rfl⟩ : ∃ j', j = j' + 1 := ⟨j - 1, by omega⟩
            simpa [invocationsTrace, innerTrace] using hs

/-- C7 witness: the amended theorem applied at `rps = 10, rpm = 6` (both →
error), `rps = 10` alone (delay `1/10`), `rpm = 6` alone (delay `60/6`), and
at the second event of a two-invocation trace (a `call` preceded by its
sleep). -/
theorem C7_witness :
    ratelimitDelay (some 10) (some 6) = Except.error RLError.rateLimitError ∧
    ratelimitDelay (some 10) none = Except.ok (1 / ((10 : Int) : Rat)) ∧
    ratelimitDelay none (some 6) = Except.ok (60 / ((6 : Int) : Rat)) ∧
    (1 ≤ 1 ∧ (invocationsTrace 1 2).get? (1 - 1) = some (RLEvent.sleep 1)) :=
  ⟨C7_ratelimit.1 10 6 (by decide) (by decide),
    C7_ratelimit.2.2.1 10 (by decide),
    C7_ratelimit.2.2.2.1 6 (by decide),
    C7_ratelimit.2.2.2.2 1 2 1 (by rfl)⟩

/-- C7 counterexample: `rps = 0` and `rpm = 5` are both supplied, yet
construction does not raise — `0` is falsy, so the decorator silently uses
the `rpm` budget and succeeds with delay `60 / 5 = 12`. -/
theorem C7_counterexample :
    ratelimitDelay (some 0) (some 5) = Except.ok 12 := by
  norm_num [ratelimitDelay, truthyOpt]

/-- C10: passing `page_number = 0` or `limit = 0` to any of the four paginator
constructors is exactly equivalent to omitting the argument: the falsy value
is silently replaced by the default and no error is raised. -/
theorem C10_zero_like_omitted :
    (∀ lim ps, Paginator.init (some 0) lim ps = Paginator.init none lim ps) ∧
    (∀ pn ps, Paginator.init pn (some 0) ps = Paginator.init pn none ps) ∧
    (∀ o tags lim ps, postInit o tags (some 0) lim ps = postInit o tags none lim ps) ∧
    (∀ o tags pn ps, postInit o tags pn (some 0) ps = postInit o tags pn none ps) ∧
    (∀ o lim ps, tagInit o (some 0) lim ps = tagInit o none lim ps) ∧
    (∀ o pn ps, tagInit o pn (some 0) ps = tagInit o pn none ps) ∧
    (∀ o lim ps, userInit o (some 0) lim ps = userInit o none lim ps) ∧
    (∀ o pn ps, userInit o pn (some 0) ps = userInit o pn none ps) := by
  refine ⟨?_, ?_, ?_, ?_, ?_, ?_, ?_, ?_⟩ <;> intros <;> rfl

theorem isAbortive_constructPage {T : Type} (decode : List (String × Json) → Option T)
    (pn : Int) (data : Json) : isAbortive (constructPage decode pn data) = false := by
  cases h : pyIter data with
  | none => simp [constructPage, h, isAbortive]
  | some js =>
      cases h2 : decodeAll decode js with
      | none => simp [constructPage, h, h2, isAbortive]
      | some items => simp [constructPage, h, h2, isAbortive]

/-- C5: a JSON object whose `code` value lies in the benign allowed-end set
makes `next_page` signal clean last-page termination; a JSON object carrying
a `code` outside the benign set together with an `errorId` (and not matching
the earlier empty-`data` case of the ordered classification) makes
`next_page` raise the API error carrying that error id, that code, and all
remaining fields of the body. -/
theorem C5_code_classification {T : Type} (allowed : Json → Bool)
    (decode : List (String × Json) → Option T) :
    (∀ (st : PagState) (fields : List (String × Json)) (c : Json),
        jlookup fields "code" = some c → allowed c = true →
        nextPage allowed decode st
            { contentType := "application/json", body := Json.obj fields } =
          (FetchResult.lastPage st.page_number, st)) ∧
    (∀ (st : PagState) (fields : List (String × Json)) (c e : Json),
        isEmptyBody (Json.obj fields) = false →
        jlookup fields "code" = some c → allowed c = false →
        jlookup fields "errorId" = some e →
        nextPage allowed decode st
            { contentType := "application/json", body := Json.obj fields } =
          (FetchResult.apiError e c
              (fields.filter (fun p => !(p.1 == "code") && !(p.1 == "errorId"))),
            st)) := by
  constructor
  · intro st fields c hc ha
    by_cases hE : isEmptyBody (Json.obj fields) = true
    · simp [nextPage, classify, hE]
    · simp only [Bool.not_eq_true] at hE
      simp [nextPage, classify, hE, getCode, hc, ha]
  · intro st fields c e hE hc ha he
    simp [nextPage, classify, hE, getCode, hc, ha, getErrorId, he, restFields]

/-- C5 witness: the theorem applied to a benign `{"code": "end_code"}` body
and to an error body `{"code": "x", "errorId": "y", "extra": 1}`. -/
theorem C5_witness :
    nextPage (fun c => match c with | Json.str s => decide (s = "end_code") | _ => false)
        (fun _ => some (0 : Nat)) (Paginator.init none none none)
        { contentType := "application/json",
          body := Json.obj [("code", Json.str "end_code")] } =
      (FetchResult.lastPage 1, Paginator.init none none none) ∧
    nextPage (fun c => match c with | Json.str s => decide (s = "end_code") | _ => false)
        (fun _ => some (0 : Nat)) (Paginator.init none none none)
        { contentType := "application/json",
          body := Json.obj [("code", Json.str "x"), ("errorId", Json.str "y"),
            ("extra", Json.num 1)] } =
      (FetchResult.apiError (Json.str "y") (Json.str "x") [("extra", Json.num 1)],
        Paginator.init none none none) :=
  ⟨(C5_code_classification _ _).1 (Paginator.init none none none)
      [("code", Json.str "end_code")] (Json.str "end_code") (by rfl) (by rfl),
    (C5_code_classification _ _).2 (Paginator.init none none none)
      [("code", Json.str "x"), ("errorId", Json.str "y"), ("extra", Json.num 1)]
      (Json.str "x") (Json.str "y") (by rfl) (by rfl) (by rfl) (by rfl)⟩

/-- C6: the ordered classification's remaining shapes, fully generally: every
JSON body that matches none of the first three cases (it is not empty or
`data`-empty, carries no benign `code`, and carries no non-benign `code`
paired with an `errorId`) proceeds to `construct_page` on `unwrapData` of the
body with the page state advanced; and `unwrapData` unwraps exactly the
objects binding `data` to a non-empty list, leaving every other body —
objects with a non-benign `code` and no `errorId` included — untouched as the
item list. -/
theorem C6_fallthrough_classification {T : Type} (allowed : Json → Bool)
    (decode : List (String × Json) → Option T) :
    (∀ (st : PagState) (body : Json),
        isEmptyBody body = false →
        (∀ c, getCode body = some c → allowed c = false ∧ getErrorId body = none) →
        nextPage allowed decode st
            { contentType := "application/json", body := body } =
          (constructPage decode (st.page_number + 1) (unwrapData body), advance st)) ∧
    (∀ (fields : List (String × Json)) (x : Json) (xs : List Json),
        jlookup fields "data" = some (Json.arr (x :: xs)) →
        unwrapData (Json.obj fields) = Json.arr (x :: xs)) ∧
    (∀ body : Json,
        (∀ (fields : List (String × Json)) (x : Json) (xs : List Json),
          body = Json.obj fields → jlookup fields "data" ≠ some (Json.arr (x :: xs))) →
        unwrapData body = body) := by
  refine ⟨?_, ?_, ?_⟩
  · intro st body hE hcode
    unfold nextPage
    rw [if_neg (by simp)]
    unfold classify
    rw [if_neg (by simp [hE])]
    cases hc : getCode body with
    | none => simp [advance]
    | some c =>
        obtain ⟨ha, he⟩ := hcode c hc
        simp [ha, he, advance]
  · intro fields x xs hd
    simp [unwrapData, hd]
  · intro body hbody
    cases body with
    | null => rfl
    | boolean b => rfl
    | num n => rfl
    | str s => rfl
    | arr l => rfl
    | obj fields =>
        simp only [unwrapData]
        cases hd : jlookup fields "data" with
        | none => rfl
        | some v =>
            cases v with
            | null => rfl
            | boolean b => rfl
            | num n => rfl
            | str s => rfl
            | obj f2 => rfl
            | arr l =>
                cases l with
                | nil => rfl
                | cons x xs => exact absurd hd (hbody fields x xs rfl)

/-- C6 witness: the general theorem applied to `{"code": "x", "data": [{}]}`
(non-benign code without `errorId` — still unwrapped and decoded as a page),
to `{"foo": 1}` (neither `code` nor `data`: the raw object is the item list;
iterating it yields its keys, which fail to decode), to the unwrap equation
on the first body, and to the identity of `unwrapData` on the number `5`. -/
theorem C6_witness :
    nextPage (fun _ => false) (fun _ => some (0 : Nat)) (Paginator.init none none none)
        { contentType := "application/json",
          body := Json.obj [("code", Json.str "x"), ("data", Json.arr [Json.obj []])] } =
      (FetchResult.page { number := 1, items := [0] },
        { page_number := 2, params := [("lang", "en"), ("page", "2"), ("limit", "40")] }) ∧
    nextPage (fun _ => false) (fun _ => some (0 : Nat)) (Paginator.init none none none)
        { contentType := "application/json", body := Json.obj [("foo", Json.num 1)] } =
      (FetchResult.decodeError,
        { page_number := 2, params := [("lang", "en"), ("page", "2"), ("limit", "40")] }) ∧
    unwrapData (Json.obj [("code", Json.str "x"), ("data", Json.arr [Json.obj []])]) =
      Json.arr [Json.obj []] ∧
    unwrapData (Json.num 5) = Json.num 5 :=
  ⟨(C6_fallthrough_classification (fun _ => false) (fun _ => some (0 : Nat))).1
      (Paginator.init none none none)
      (Json.obj [("code", Json.str "x"), ("data", Json.arr [Json.obj []])])
      (by rfl) (fun c hc => ⟨rfl, rfl⟩),
    (C6_fallthrough_classification (fun _ => false) (fun _ => some (0 : Nat))).1
      (Paginator.init none none none) (Json.obj [("foo", Json.num 1)])
      (by rfl) (fun c hc => nomatch hc),
    (C6_fallthrough_classification (fun _ => false) (fun _ => some (0 : Nat))).2.1
      [("code", Json.str "x"), ("data", Json.arr [Json.obj []])] (Json.obj []) []
      (by rfl),
    (C6_fallthrough_classification (fun _ => false) (fun _ => some (0 : Nat))).2.2
      (Json.num 5) (fun fields x xs h => nomatch h)⟩


/-- C4 (amended): a `[]` or `{"data": []}` body makes `next_page` terminate
the sequence cleanly with the pagination state unchanged, and every outcome
raised by the response classification — last-page, API error, protocol
(non-JSON) error — leaves the state unchanged; an item-decode failure,
however, is an error outcome that occurs after the page number and `page`
parameter have already advanced (see the counterexample). -/
theorem C4_termination_state {T : Type} (allowed : Json → Bool)
    (decode : List (String × Json) → Option T) :
    (∀ st : PagState,
        nextPage allowed decode st
            { contentType := "application/json", body := Json.arr [] } =
          (FetchResult.lastPage st.page_number, st)) ∧
    (∀ (st : PagState) (fields : List (String × Json)),
        jlookup fields "data" = some (Json.arr []) →
        nextPage allowed decode st
            { contentType := "application/json", body := Json.obj fields } =
          (FetchResult.lastPage st.page_number, st)) ∧
    (∀ (st : PagState) (resp : Response) (r : FetchResult T) (st' : PagState),
        nextPage allowed decode st resp = (r, st') → isAbortive r = true →
        st' = st) := by
  refine ⟨?_, ?_, ?_⟩
  · intro st
    simp [nextPage, classify, isEmptyBody]
  · intro st fields hd
    simp [nextPage, classify, isEmptyBody, hd]
  · intro st resp r st' h habort
    unfold nextPage at h
    by_cases hct : resp.contentType ≠ "application/json"
    · rw [if_pos hct] at h
      cases h
      rfl
    · rw [if_neg hct] at h
      cases hcl : classify allowed resp.body with
      | last => rw [hcl] at h; cases h; rfl
      | apiErr e c rest => rw [hcl] at h; cases h; rfl
      | proceed data =>
          rw [hcl] at h
          cases h
          rw [isAbortive_constructPage] at habort
          exact absurd habort (by decide)

/-- C4 witness: the theorem applied to a `{"data": []}` body on a fresh
default paginator, and to a non-JSON response (a protocol error, an abortive
outcome leaving the state untouched). -/
theorem C4_witness :
    nextPage (fun _ => false) (fun _ => some (0 : Nat)) (Paginator.init none none none)
        { contentType := "application/json", body := Json.obj [("data", Json.arr [])] } =
      (FetchResult.lastPage 1, Paginator.init none none none) ∧
    Paginator.init none none none = Paginator.init none none none :=
  ⟨(C4_termination_state (fun _ => false) (fun _ => some (0 : Nat))).2.1
      (Paginator.init none none none) [("data", Json.arr [])] (by rfl),
    (C4_termination_state (fun _ => false) (fun _ => some (0 : Nat))).2.2
      (Paginator.init none none none)
      { contentType := "text/html", body := Json.arr [] }
      (FetchResult.protocolError "text/html") (Paginator.init none none none)
      (by rfl) (by rfl)⟩

/-- C4 counterexample: a body `[{}]` whose single item fails to decode is an
error outcome of `next_page`, yet the pagination state has mutated — the page
number has advanced from 1 to 2 and the `page` parameter from `"1"` to
`"2"` — refuting "on every termination or error outcome the pagination state
is not mutated". -/
theorem C4_counterexample :
    nextPage (fun _ => false) (fun _ => none (α := Nat)) (Paginator.init none none none)
        { contentType := "application/json", body := Json.arr [Json.obj []] } =
      (FetchResult.decodeError,
        { page_number := 2, params := [("lang", "en"), ("page", "2"), ("limit", "40")] }) ∧
    ({ page_number := 2, params := [("lang", "en"), ("page", "2"), ("limit", "40")] } :
        PagState) ≠ Paginator.init none none none :=
  ⟨rfl, by decide⟩

theorem postTagTokens_eq_some (o : PostOptions) (secs : List Int)
    (hv : o.video_duration = some secs) :
    postTagTokens o =
      if o.file_type ≠ some FileType.video then
        Except.error PagError.videoDurationError
      else
        Except.ok (postTagTokensTail o
          (postTokensPre o
            ++ ["duration:" ++ String.intercalate ".." (secs.map toString)])) := by
  unfold postTagTokens
  rw [hv]

theorem postTagTokens_eq_none (o : PostOptions) (hv : o.video_duration = none) :
    postTagTokens o = Except.ok (postTagTokensTail o (postTokensPre o)) := by
  unfold postTagTokens
  rw [hv]

theorem mem_postTagTokensTail (o : PostOptions) (acc : List String) (a : String)
    (h : a ∈ acc) : a ∈ postTagTokensTail o acc := by
  unfold postTagTokensTail
  simp [h]

/-- C8: constructing a `PostPaginator` with a `video_duration` range while
`file_type` is not `VIDEO` (including absent) fails synchronously inside
`complete_params` with `VideoDurationError` — no paginator is produced, hence
no network activity can occur; with `file_type == VIDEO` and
`video_duration = [10, 20]`, construction succeeds, the token
`duration:10..20` is among the accumulated tags, and the composite `tags`
query value is the space-join of exactly those tags. -/
theorem C8_video_duration_validation :
    (∀ (o : PostOptions) (tags0 : Option (List String)) (pn lim : Option Int)
        (ps : Option Params) (secs : List Int),
        o.video_duration = some secs → o.file_type ≠ some FileType.video →
        postInit o tags0 pn lim ps = Except.error PagError.videoDurationError) ∧
    (∀ (o : PostOptions) (tags0 : Option (List String)) (pn lim : Option Int)
        (ps : Option Params) (s : PostState),
        o.video_duration = some [10, 20] → o.file_type = some FileType.video →
        postInit o tags0 pn lim ps = Except.ok s →
        "duration:10..20" ∈ s.tags ∧
        lookupParam s.base.params "tags" = some (String.intercalate " " s.tags)) := by
  constructor
  · intro o tags0 pn lim ps secs hv hft
    have htok : postTagTokens o = Except.error PagError.videoDurationError := by
      rw [postTagTokens_eq_some o secs hv, if_pos hft]
    simp [postInit, postCompleteParams, htok]
  · intro o tags0 pn lim ps s hv hft hok
    have htok : postTagTokens o = Except.ok (postTagTokensTail o
        (postTokensPre o ++ ["duration:10..20"])) := by
      rw [postTagTokens_eq_some o [10, 20] hv, if_neg (not_not_intro hft)]
      rfl
    have hmem : "duration:10..20" ∈ postTagTokensTail o
        (postTokensPre o ++ ["duration:10..20"]) :=
      mem_postTagTokensTail o _ _ (List.mem_append.mpr (Or.inr (List.mem_singleton.mpr rfl)))
    have hmem2 : "duration:10..20" ∈ tags0.getD [] ++ postTagTokensTail o
        (postTokensPre o ++ ["duration:10..20"]) := List.mem_append.mpr (Or.inr hmem)
    have hne : (tags0.getD [] ++ postTagTokensTail o
        (postTokensPre o ++ ["duration:10..20"])).isEmpty = false := by
      cases hl : tags0.getD [] ++ postTagTokensTail o
          (postTokensPre o ++ ["duration:10..20"]) with
      | nil => rw [hl] at hmem2; cases hmem2
      | cons a l => rfl
    simp only [postInit, postCompleteParams, htok, hne, Bool.false_eq_true,
      if_false] at hok
    cases hok
    exact ⟨hmem2, lookupParam_setParam_self _ _ _⟩

/-- C8 witness: the theorem applied to `video_duration = [10, 20]` with
`file_type` absent (construction fails) and with `file_type = VIDEO`
(construction succeeds with the `duration:10..20` token in the `tags`
value). -/
theorem C8_witness :
    postInit ({ video_duration := some [10, 20] } : PostOptions) none none none none =
      Except.error PagError.videoDurationError ∧
    ("duration:10..20" ∈ ["file_type:video", "duration:10..20"] ∧
      lookupParam [("lang", "en"), ("page", "1"), ("limit", "40"),
          ("tags", "file_type:video duration:10..20")] "tags" =
        some (String.intercalate " " ["file_type:video", "duration:10..20"])) :=
  ⟨C8_video_duration_validation.1 ({ video_duration := some [10, 20] } : PostOptions)
      none none none none [10, 20] (by rfl) (by decide),
    C8_video_duration_validation.2
      ({ video_duration := some [10, 20], file_type := some FileType.video } : PostOptions)
      none none none none
      ⟨⟨1, [("lang", "en"), ("page", "1"), ("limit", "40"),
          ("tags", "file_type:video duration:10..20")]⟩,
        ["file_type:video", "duration:10..20"]⟩
      (by rfl) (by rfl) (by rfl)⟩

theorem lookup_postCompleteParams_other (o : PostOptions) (tags0 : Option (List String))
    (pn lim : Int) (ps : Params) (tgs : List String) (ps3 : Params)
    (h : postCompleteParams o tags0 pn lim ps = Except.ok (tgs, ps3)) (k : String)
    (hk1 : k ≠ "hide_posts_in_books") (hk2 : k ≠ "tags") :
    lookupParam ps3 k = lookupParam (completeParamsBase pn lim ps) k := by
  cases htok : postTagTokens o with
  | error e => simp [postCompleteParams, htok] at h
  | ok toks =>
      simp only [postCompleteParams, htok, Except.ok.injEq, Prod.mk.injEq] at h
      obtain ⟨htags, hps⟩ := h
      rw [← hps]
      by_cases hemp : (tags0.getD [] ++ toks).isEmpty = true
      · rw [if_pos hemp]
        exact lookup_maybeSet_other _ _ _ _ _ hk1
      · rw [if_neg hemp, lookupParam_setParam_other _ _ _ _ hk2]
        exact lookup_maybeSet_other _ _ _ _ _ hk1

theorem lookup_tagCompleteParams_other (o : TagOptions) (sd : SortDirection)
    (pn lim : Int) (ps : Params) (k : String)
    (h1 : k ≠ "types[]") (h2 : k ≠ "order") (h3 : k ≠ "rating") (h4 : k ≠ "amount")
    (h5 : k ≠ "sortBy") (h6 : k ≠ "sortDirection") :
    lookupParam (tagCompleteParams o sd pn lim ps) k =
      lookupParam (completeParamsBase pn lim ps) k := by
  cases hsp : o.sort_parameter with
  | some sp =>
      simp only [tagCompleteParams, hsp]
      rw [lookupParam_setParam_other _ _ _ _ h6, lookupParam_setParam_other _ _ _ _ h5,
        lookup_maybeSet_other _ _ _ _ _ h4, lookup_maybeSet_other _ _ _ _ _ h3,
        lookup_maybeSet_other _ _ _ _ _ h2, lookup_maybeSet_other _ _ _ _ _ h1]
  | none =>
      simp only [tagCompleteParams, hsp]
      rw [lookup_maybeSet_other _ _ _ _ _ h4, lookup_maybeSet_other _ _ _ _ _ h3,
        lookup_maybeSet_other _ _ _ _ _ h2, lookup_maybeSet_other _ _ _ _ _ h1]

theorem lookup_userCompleteParams_other (o : UserOptions) (pn lim : Int) (ps : Params)
    (k : String) (h1 : k ≠ "order") (h2 : k ≠ "level") :
    lookupParam (userCompleteParams o pn lim ps) k =
      lookupParam (completeParamsBase pn lim ps) k := by
  simp only [userCompleteParams]
  rw [lookup_maybeSet_other _ _ _ _ _ h2, lookup_maybeSet_other _ _ _ _ _ h1]

/-- C9: after construction of any of the four paginator variants the query
mapping contains `lang = "en"`, `page` as the stringified effective page
number and `limit` as the stringified effective limit (defaults or supplied
overrides); and every `next_page` call preserves the `lang` and `limit`
entries and keeps a `page` entry present. -/
theorem C9_base_params_invariant :
    (∀ (pn lim : Option Int) (ps : Option Params),
        lookupParam (Paginator.init pn lim ps).params "lang" = some "en" ∧
        lookupParam (Paginator.init pn lim ps).params "page" =
          some (toString (orDefault pn BASE_PAGE_NUMBER)) ∧
        lookupParam (Paginator.init pn lim ps).params "limit" =
          some (toString (orDefault lim BASE_PAGE_LIMIT))) ∧
    (∀ (o : PostOptions) (tags0 : Option (List String)) (pn lim : Option Int)
        (ps : Option Params) (s : PostState),
        postInit o tags0 pn lim ps = Except.ok s →
        lookupParam s.base.params "lang" = some "en" ∧
        lookupParam s.base.params "page" =
          some (toString (orDefault pn BASE_PAGE_NUMBER)) ∧
        lookupParam s.base.params "limit" =
          some (toString (orDefault lim BASE_PAGE_LIMIT))) ∧
    (∀ (o : TagOptions) (pn lim : Option Int) (ps : Option Params),
        lookupParam (tagInit o pn lim ps).params "lang" = some "en" ∧
        lookupParam (tagInit o pn lim ps).params "page" =
          some (toString (orDefault pn BASE_PAGE_NUMBER)) ∧
        lookupParam (tagInit o pn lim ps).params "limit" =
          some (toString (orDefault lim BASE_PAGE_LIMIT))) ∧
    (∀ (o : UserOptions) (pn lim : Option Int) (ps : Option Params),
        lookupParam (userInit o pn lim ps).params "lang" = some "en" ∧
        lookupParam (userInit o pn lim ps).params "page" =
          some (toString (orDefault pn BASE_PAGE_NUMBER)) ∧
        lookupParam (userInit o pn lim ps).params "limit" =
          some (toString (orDefault lim BASE_PAGE_LIMIT))) ∧
    (∀ (T : Type) (allowed : Json → Bool) (decode : List (String × Json) → Option T)
        (st : PagState) (resp : Response) (r : FetchResult T) (st' : PagState),
        nextPage allowed decode st resp = (r, st') →
        lookupParam st'.params "lang" = lookupParam st.params "lang" ∧
        lookupParam st'.params "limit" = lookupParam st.params "limit" ∧
        ((∃ v, lookupParam st.params "page" = some v) →
          ∃ w, lookupParam st'.params "page" = some w)) := by
  refine ⟨?_, ?_, ?_, ?_, ?_⟩
  · intro pn lim ps
    exact ⟨lookup_completeParamsBase_lang _ _ _, lookup_completeParamsBase_page _ _ _,
      lookup_completeParamsBase_limit _ _ _⟩
  · intro o tags0 pn lim ps s hok
    cases hcp : postCompleteParams o tags0 (orDefault pn BASE_PAGE_NUMBER)
        (orDefault lim BASE_PAGE_LIMIT) (ps.getD []) with
    | error e => simp [postInit, hcp] at hok
    | ok pr =>
        simp only [postInit, hcp] at hok
        cases hok
        have h1 := lookup_postCompleteParams_other o tags0 _ _ _ pr.1 pr.2
          (by rw [hcp])
        rw [h1 "lang" (by decide) (by decide), h1 "page" (by decide) (by decide),
          h1 "limit" (by decide) (by decide)]
        exact ⟨lookup_completeParamsBase_lang _ _ _, lookup_completeParamsBase_page _ _ _,
          lookup_completeParamsBase_limit _ _ _⟩
  · intro o pn lim ps
    unfold tagInit
    have h1 := lookup_tagCompleteParams_other o (o.sort_direction.getD SortDirection.desc)
      (orDefault pn BASE_PAGE_NUMBER) (orDefault lim BASE_PAGE_LIMIT) (ps.getD [])
    rw [h1 "lang" (by decide) (by decide) (by decide) (by decide) (by decide) (by decide),
      h1 "page" (by decide) (by decide) (by decide) (by decide) (by decide) (by decide),
      h1 "limit" (by decide) (by decide) (by decide) (by decide) (by decide) (by decide)]
    exact ⟨lookup_completeParamsBase_lang _ _ _, lookup_completeParamsBase_page _ _ _,
      lookup_completeParamsBase_limit _ _ _⟩
  · intro o pn lim ps
    unfold userInit
    have h1 := lookup_userCompleteParams_other o (orDefault pn BASE_PAGE_NUMBER)
      (orDefault lim BASE_PAGE_LIMIT) (ps.getD [])
    rw [h1 "lang" (by decide) (by decide), h1 "page" (by decide) (by decide),
      h1 "limit" (by decide) (by decide)]
    exact ⟨lookup_completeParamsBase_lang _ _ _, lookup_completeParamsBase_page _ _ _,
      lookup_completeParamsBase_limit _ _ _⟩
  · intro T allowed decode st resp r st' h
    unfold nextPage at h
    by_cases hct : resp.contentType ≠ "application/json"
    · rw [if_pos hct] at h
      cases h
      exact ⟨rfl, rfl, fun hx => hx⟩
    · rw [if_neg hct] at h
      cases hcl : classify allowed resp.body with
      | last => rw [hcl] at h; cases h; exact ⟨rfl, rfl, fun hx => hx⟩
      | apiErr e c rest => rw [hcl] at h; cases h; exact ⟨rfl, rfl, fun hx => hx⟩
      | proceed data =>
          rw [hcl] at h
          cases h
          refine ⟨?_, ?_, ?_⟩
          · exact lookupParam_setParam_other _ _ _ "lang" (by decide)
          · exact lookupParam_setParam_other _ _ _ "limit" (by decide)
          · intro _
            exact ⟨_, lookupParam_setParam_self _ _ _⟩

/-- C9 witness: the theorem applied to a default-constructed `PostPaginator`
(no filters) and to one decode-failing `next_page` call on a fresh state —
`lang` and `limit` survive and `page` stays present. -/
theorem C9_witness :
    (lookupParam [("lang", "en"), ("page", "1"), ("limit", "40")] "lang" = some "en" ∧
      lookupParam [("lang", "en"), ("page", "1"), ("limit", "40")] "page" = some "1" ∧
      lookupParam [("lang", "en"), ("page", "1"), ("limit", "40")] "limit" = some "40") ∧
    (lookupParam [("lang", "en"), ("page", "2"), ("limit", "40")] "lang" =
        lookupParam [("lang", "en"), ("page", "1"), ("limit", "40")] "lang" ∧
      lookupParam [("lang", "en"), ("page", "2"), ("limit", "40")] "limit" =
        lookupParam [("lang", "en"), ("page", "1"), ("limit", "40")] "limit" ∧
      ((∃ v, lookupParam [("lang", "en"), ("page", "1"), ("limit", "40")] "page" = some v) →
        ∃ w, lookupParam [("lang", "en"), ("page", "2"), ("limit", "40")] "page" = some w)) :=
  ⟨C9_base_params_invariant.2.1 ({} : PostOptions) none none none none
      ⟨⟨1, [("lang", "en"), ("page", "1"), ("limit", "40")]⟩, []⟩ (by rfl),
    C9_base_params_invariant.2.2.2.2 Nat (fun _ => false) (fun _ => none)
      ⟨1, [("lang", "en"), ("page", "1"), ("limit", "40")]⟩
      { contentType := "application/json", body := Json.arr [Json.obj []] }
      FetchResult.decodeError ⟨2, [("lang", "en"), ("page", "2"), ("limit", "40")]⟩
      (by rfl)⟩

/-- C3 (amended): re-running `PostPaginator.complete_params` on an unchanged
options bundle reproduces the same tag list and parameter mapping exactly
when the options produce no tag tokens; when at least one token-producing
filter is present, the second run appends the produced tokens to `self.tags`
again, so duplicate tokens accumulate in the `tags` value (see the
counterexample). -/
theorem C3_complete_params_rerun (o : PostOptions) (tags0 : Option (List String))
    (pn lim : Int) (ps : Params) (s : List String × Params)
    (htok : postTagTokens o = Except.ok [])
    (h : postCompleteParams o tags0 pn lim ps = Except.ok s) :
    postCompleteParams o (some s.1) pn lim s.2 = Except.ok s := by
  obtain ⟨s1, s2⟩ := s
  simp only [postCompleteParams, htok, List.append_nil, Except.ok.injEq,
    Prod.mk.injEq, Option.getD_some] at h ⊢
  obtain ⟨h1, h2⟩ := h
  subst h1
  refine ⟨trivial, ?_⟩
  by_cases hemp : (tags0.getD []).isEmpty = true
  · rw [if_pos hemp] at h2 ⊢
    have hlang : lookupParam s2 "lang" = some "en" := by
      rw [← h2, lookup_maybeSet_other _ _ _ _ _ (by decide)]
      exact lookup_completeParamsBase_lang _ _ _
    have hpage : lookupParam s2 "page" = some (toString pn) := by
      rw [← h2, lookup_maybeSet_other _ _ _ _ _ (by decide)]
      exact lookup_completeParamsBase_page _ _ _
    have hlim : lookupParam s2 "limit" = some (toString lim) := by
      rw [← h2, lookup_maybeSet_other _ _ _ _ _ (by decide)]
      exact lookup_completeParamsBase_limit _ _ _
    have hcb : completeParamsBase pn lim s2 = s2 := by
      unfold completeParamsBase
      rw [setParam_lookup_id _ _ _ hlang, setParam_lookup_id _ _ _ hpage,
        setParam_lookup_id _ _ _ hlim]
    rw [hcb]
    cases hh : o.hide_posts_in_books with
    | none => simp [maybeSet, hh]
    | some v =>
        have hhv : lookupParam s2 "hide_posts_in_books" = some v := by
          rw [← h2]
          simp [maybeSet, hh, lookupParam_setParam_self]
        simp [maybeSet, hh, setParam_lookup_id _ _ _ hhv]
  · rw [if_neg hemp] at h2 ⊢
    have hlang : lookupParam s2 "lang" = some "en" := by
      rw [← h2, lookupParam_setParam_other _ _ _ _ (by decide),
        lookup_maybeSet_other _ _ _ _ _ (by decide)]
      exact lookup_completeParamsBase_lang _ _ _
    have hpage : lookupParam s2 "page" = some (toString pn) := by
      rw [← h2, lookupParam_setParam_other _ _ _ _ (by decide),
        lookup_maybeSet_other _ _ _ _ _ (by decide)]
      exact lookup_completeParamsBase_page _ _ _
    have hlim : lookupParam s2 "limit" = some (toString lim) := by
      rw [← h2, lookupParam_setParam_other _ _ _ _ (by decide),
        lookup_maybeSet_other _ _ _ _ _ (by decide)]
      exact lookup_completeParamsBase_limit _ _ _
    have hcb : completeParamsBase pn lim s2 = s2 := by
      unfold completeParamsBase
      rw [setParam_lookup_id _ _ _ hlang, setParam_lookup_id _ _ _ hpage,
        setParam_lookup_id _ _ _ hlim]
    rw [hcb]
    have htags : lookupParam s2 "tags" =
        some (String.intercalate " " (tags0.getD [])) := by
      rw [← h2]
      exact lookupParam_setParam_self _ _ _
    cases hh : o.hide_posts_in_books with
    | none =>
        simp only [maybeSet, hh]
        rw [setParam_lookup_id _ _ _ htags]
    | some v =>
        have hhv : lookupParam s2 "hide_posts_in_books" = some v := by
          rw [← h2, lookupParam_setParam_other _ _ _ _ (by decide)]
          simp [maybeSet, hh, lookupParam_setParam_self]
        simp only [maybeSet, hh, id_eq]
        rw [setParam_lookup_id _ _ _ hhv, setParam_lookup_id _ _ _ htags]

/-- C3 witness: the amended theorem applied to an options bundle with no
filters at all (no tokens produced) and a pre-seeded explicit tag list. -/
theorem C3_witness :
    postCompleteParams ({} : PostOptions) (some ["a"]) 1 40
        [("lang", "en"), ("page", "1"), ("limit", "40"), ("tags", "a")] =
      Except.ok (["a"],
        [("lang", "en"), ("page", "1"), ("limit", "40"), ("tags", "a")]) :=
  C3_complete_params_rerun ({} : PostOptions) (some ["a"]) 1 40 []
    (["a"], [("lang", "en"), ("page", "1"), ("limit", "40"), ("tags", "a")])
    (by rfl) (by rfl)

/-- C3 counterexample: with `rating` present, the first `complete_params` run
yields the `tags` value `"rating:s"`; running it again on the resulting
unchanged options bundle appends the token a second time, yielding
`"rating:s rating:s"` — the parameter mapping differs, so the completion step
is not idempotent. -/
theorem C3_counterexample :
    postCompleteParams ({ rating := some Rating.safe } : PostOptions) none 1 40 [] =
      Except.ok (["rating:s"],
        [("lang", "en"), ("page", "1"), ("limit", "40"), ("tags", "rating:s")]) ∧
    postCompleteParams ({ rating := some Rating.safe } : PostOptions)
        (some ["rating:s"]) 1 40
        [("lang", "en"), ("page", "1"), ("limit", "40"), ("tags", "rating:s")] =
      Except.ok (["rating:s", "rating:s"],
        [("lang", "en"), ("page", "1"), ("limit", "40"),
          ("tags", "rating:s rating:s")]) ∧
    ([("lang", "en"), ("page", "1"), ("limit", "40"),
        ("tags", "rating:s rating:s")] : Params) ≠
      [("lang", "en"), ("page", "1"), ("limit", "40"), ("tags", "rating:s")] :=
  ⟨rfl, rfl, by decide⟩

end Sankaku
